import Mathlib

/-!
Verification of the ACME bank chatbot Lambda handlers.

Shallow embedding of the three Python sources:
  * `ACMEBankBotAccountOverview.py`
  * `ACMEBankBotTransactionList.py`
  * `AccountOverviewIntent_ValidationFunction.py`

Modelling choices:
  * The DynamoDB tables (`ACMEBankCustomer`, `ACMEBankAccount`,
    `ACMEAccountTransaction`) are modelled by an explicit `Store` value;
    each `query` with a key condition becomes a `List.filter` on the
    corresponding record list, and `Count` becomes the filtered length.
  * Python dictionaries of slots are association lists that preserve
    declaration order; a slot whose value is Python `None` holds `none`.
  * A Python `raise`, an unbound-name reference (`NameError`), a missing
    dictionary key (`KeyError`) and `len(None)` (`TypeError`) are modelled
    by `Except.error` with a `PyError` describing the failure; a returned
    response dictionary is `Except.ok`.
  * `logger.debug` calls are dropped: logging is side-effect-only output.
    (In `AccountOverviewIntent_ValidationFunction.py` two of the dropped
    `logger.debug` lines, lines 81 and 90, are missing their closing
    parenthesis, so that file does not even parse as Python; the embedding
    models the statement-level semantics of the handler with the logging
    lines removed.)
  * Numeric attributes read from the store (`AccountBalance`, `Amount`,
    `Date`) are carried as strings: the formatters interpolate them
    verbatim and the spec requires amounts to be rendered exactly as
    stored.
-/

namespace ACMEBank

/-- Session attributes: an opaque string-to-string mapping. -/
abbrev SessAttrs := List (String × String)

/-- The slot mapping of `event['currentIntent']['slots']`: an ordered
association list from slot name to optional value (`none` = Python `None`). -/
abbrev Slots := List (String × Option String)

/-- A row of the `ACMEBankAccount` table. -/
structure AccountRecord where
  customerIdentifier : String
  accountIdentifier : String
  accountBalance : String
deriving DecidableEq, Repr

/-- A row of the `ACMEAccountTransaction` table. -/
structure TransactionRecord where
  accountIdentifier : String
  transactionIdentifier : String
  amount : String
  date : String
  typeCode : String
deriving DecidableEq, Repr

/-- The external reference store: the three DynamoDB tables.
`customers` holds the `CustomerIdentifier` keys of `ACMEBankCustomer`. -/
structure Store where
  customers : List String
  accounts : List AccountRecord
  transactions : List TransactionRecord
deriving DecidableEq, Repr

/-- An inbound Lex turn request (`event`), per the request JSON contract. -/
structure Event where
  botName : String
  intentName : String
  slots : Slots
  sessionAttributes : Option SessAttrs
  invocationSource : String
deriving DecidableEq, Repr

/-- A `message` object: `{'contentType': ..., 'content': ...}`. -/
structure Message where
  contentType : String
  content : String
deriving DecidableEq, Repr

/-- The `dialogAction` part of a handler response, one variant per shape
built by the sources.  The fulfillment handlers build `ElicitSlot` without
a `message` key (`message = none`); the validation function includes one. -/
inductive DialogAction where
  | elicitSlot (intentName : String) (slots : Slots) (slotToElicit : String)
      (message : Option Message)
  | delegate (slots : Slots)
  | close (fulfillmentState : String) (message : Message)
deriving DecidableEq, Repr

/-- A handler response dictionary: session attributes plus dialog action.
`sessionAttributes` is `Option` because the fulfillment handlers pass the
request value through verbatim, including Python `None`. -/
structure Response where
  sessionAttributes : Option SessAttrs
  dialogAction : DialogAction
deriving DecidableEq, Repr

/-- How a Python-level failure aborts a handler invocation. -/
inductive PyError where
  | exceptionRaised (msg : String)
  | nameError (name : String)
  | typeError (msg : String)
  | keyError (key : String)
deriving DecidableEq, Repr

/-- Dictionary update `slots[name] = v`: rewrites the entry for `name`,
leaving every other entry (and the order) untouched.  The handlers only
assign to keys that are already present. -/
def setSlot (slots : Slots) (name : String) (v : Option String) : Slots :=
  slots.map (fun p => if p.1 = name then (p.1, v) else p)

/-! ## `ACMEBankBotAccountOverview.py` / `ACMEBankBotTransactionList.py`
shared helpers (the two files contain identical copies of `elicit_slot`,
`defer_next_action_to_chatbot` and `validate_customer_identifier`). -/

/-- `elicit_slot` of the fulfillment handlers: ElicitSlot with no message. -/
def elicit_slot (slot_to_elicit : String) (session_attributes : Option SessAttrs)
    (intent_name : String) (slots : Slots) : Response :=
  { sessionAttributes := session_attributes,
    dialogAction := .elicitSlot intent_name slots slot_to_elicit none }

/-- `defer_next_action_to_chatbot`: a Delegate response. -/
def defer_next_action_to_chatbot (session_attributes : Option SessAttrs)
    (slots : Slots) : Response :=
  { sessionAttributes := session_attributes,
    dialogAction := .delegate slots }

/-- `validate_customer_identifier` of the fulfillment handlers: query the
`ACMEBankCustomer` table by key equality; `False` iff `Count == 0`. -/
def validate_customer_identifier (store : Store) (customer_identifier : String) :
    Bool :=
  if (store.customers.filter (fun k => k = customer_identifier)).length = 0 then
    false
  else
    true

/-- `validate_account_identifier` (`ACMEBankBotTransactionList.py`): query
the `ACMEBankAccount` table by the (customer, account) key pair. -/
def validate_account_identifier (store : Store) (customer_identifier : String)
    (account_identifier : String) : Bool :=
  if (store.accounts.filter (fun a =>
        a.customerIdentifier = customer_identifier ∧
        a.accountIdentifier = account_identifier)).length = 0 then
    false
  else
    true

/-- The per-account line built inside `get_account_overview`. -/
def accountDescription (a : AccountRecord) : String :=
  "The balance in account number " ++ a.accountIdentifier ++ " is £" ++
    a.accountBalance

/-- The body of the `for i in range(num_accounts)` loop of
`get_account_overview`, as structural recursion: every account description
is followed by `", "` except the last, which is followed by the closing
sentence (`i == num_accounts - 1` is the singleton-tail case). -/
def formatAccounts : List AccountRecord → String
  | [] => ""
  | [a] => accountDescription a ++ ". Is there anything else I can help you with?"
  | a :: rest => accountDescription a ++ ", " ++ formatAccounts rest

/-- `get_account_overview`: query `ACMEBankAccount` by customer key, fixed
sentence when `Count == 0`, otherwise the formatting loop. -/
def get_account_overview (store : Store) (customer_identifier : String) : String :=
  let items := store.accounts.filter
    (fun a => a.customerIdentifier = customer_identifier)
  if items.length = 0 then
    "I could not find any accounts for you on our systems. Is there anything else I can help you with?"
  else
    formatAccounts items

/-- The `transaction_type_description` assignment chain of
`get_transaction_summary`: default `'credit'`, overridden for `'CW'` and
`'TFR'`. -/
def transaction_type_description (transaction_type_code : String) : String :=
  if transaction_type_code = "CW" then "cash withdrawal"
  else if transaction_type_code = "TFR" then "outbound transfer"
  else "credit"

/-- The per-transaction line built inside `get_transaction_summary`. -/
def transactionDescription (t : TransactionRecord) : String :=
  "Transaction #" ++ t.transactionIdentifier ++ ": " ++
    transaction_type_description t.typeCode ++ " of £" ++ t.amount ++
    " on " ++ t.date

/-- The `for i in range(num_transactions)` loop of `get_transaction_summary`,
as structural recursion (same join scheme as `formatAccounts`). -/
def formatTransactions : List TransactionRecord → String
  | [] => ""
  | [t] => transactionDescription t ++ ". Is there anything else I can help you with?"
  | t :: rest => transactionDescription t ++ ", " ++ formatTransactions rest

/-- `get_transaction_summary`: query `ACMEAccountTransaction` by account
key, fixed sentence when `Count == 0`, otherwise the formatting loop. -/
def get_transaction_summary (store : Store) (account_identifier : String) : String :=
  let items := store.transactions.filter
    (fun t => t.accountIdentifier = account_identifier)
  if items.length = 0 then
    "I could not find any transactions for this account on our systems. Is there anything else I can help you with?"
  else
    formatTransactions items

/-- `lambda_handler` of `ACMEBankBotAccountOverview.py`.  In the source the
valid-slot branch of the `DialogCodeHook` block falls through to the shared
closing epilogue (`get_account_overview` + Close); that epilogue appears
once per path here.  A `None` customer identifier reaching the epilogue
would make `boto3` reject the key condition, modelled as a `TypeError`. -/
def accountOverview_lambda_handler (store : Store) (event : Event) :
    Except PyError Response :=
  if event.botName ≠ "ACMEBankBot" then
    .error (.exceptionRaised "This function can only be used with the ACMEBankBot")
  else if event.intentName ≠ "AccountOverview" then
    .error (.exceptionRaised "This function can only be used with the AccountOverview intent")
  else
    let session_attributes := event.sessionAttributes
    let intent_slots := event.slots
    match intent_slots.lookup "CustomerIdentifier" with
    | none => .error (.keyError "CustomerIdentifier")
    | some customer_identifier =>
      if event.invocationSource = "DialogCodeHook" then
        match customer_identifier with
        | none =>
          .ok (elicit_slot "CustomerIdentifier" session_attributes
                event.intentName intent_slots)
        | some cid =>
          if ¬ validate_customer_identifier store cid then
            .ok (defer_next_action_to_chatbot session_attributes
                  (setSlot intent_slots "CustomerIdentifier" none))
          else
            .ok { sessionAttributes := session_attributes,
                  dialogAction := .close "Fulfilled"
                    { contentType := "PlainText",
                      content := get_account_overview store cid } }
      else
        match customer_identifier with
        | some cid =>
          .ok { sessionAttributes := session_attributes,
                dialogAction := .close "Fulfilled"
                  { contentType := "PlainText",
                    content := get_account_overview store cid } }
        | none => .error (.typeError "query key CustomerIdentifier is None")

/-- `lambda_handler` of `ACMEBankBotTransactionList.py`.  The
`DialogCodeHook` block checks, in source order: customer missing, account
missing, customer invalid, account invalid; the all-valid branch falls
through to the shared closing epilogue (`get_transaction_summary` + Close),
which only uses the account identifier. -/
def viewTransactionList_lambda_handler (store : Store) (event : Event) :
    Except PyError Response :=
  if event.botName ≠ "ACMEBankBot" then
    .error (.exceptionRaised "This function can only be used with the ACMEBankBot")
  else if event.intentName ≠ "ViewTransactionList" then
    .error (.exceptionRaised "This function can only be used with the ViewTransactionList intent")
  else
    let session_attributes := event.sessionAttributes
    let intent_slots := event.slots
    match intent_slots.lookup "CustomerIdentifier" with
    | none => .error (.keyError "CustomerIdentifier")
    | some customer_identifier =>
      match intent_slots.lookup "AccountIdentifier" with
      | none => .error (.keyError "AccountIdentifier")
      | some account_identifier =>
        if event.invocationSource = "DialogCodeHook" then
          match customer_identifier with
          | none =>
            .ok (elicit_slot "CustomerIdentifier" session_attributes
                  event.intentName intent_slots)
          | some cid =>
            match account_identifier with
            | none =>
              .ok (elicit_slot "AccountIdentifier" session_attributes
                    event.intentName intent_slots)
            | some aid =>
              if ¬ validate_customer_identifier store cid then
                .ok (defer_next_action_to_chatbot session_attributes
                      (setSlot intent_slots "CustomerIdentifier" none))
              else if ¬ validate_account_identifier store cid aid then
                .ok (defer_next_action_to_chatbot session_attributes
                      (setSlot intent_slots "AccountIdentifier" none))
              else
                .ok { sessionAttributes := session_attributes,
                      dialogAction := .close "Fulfilled"
                        { contentType := "PlainText",
                          content := get_transaction_summary store aid } }
        else
          match account_identifier with
          | some aid =>
            .ok { sessionAttributes := session_attributes,
                  dialogAction := .close "Fulfilled"
                    { contentType := "PlainText",
                      content := get_transaction_summary store aid } }
          | none => .error (.typeError "query key AccountIdentifier is None")

/-! ## `AccountOverviewIntent_ValidationFunction.py` -/

/-- The `build_validation_result` dictionary: the `message` key is absent
(`none`) when `message_content` is `None`. -/
structure ValidationResult where
  isValid : Bool
  violatedSlot : Option String
  message : Option Message
deriving DecidableEq, Repr

/-- `build_validation_result`. -/
def build_validation_result (is_valid : Bool) (violated_slot : Option String)
    (message_content : Option String) : ValidationResult :=
  match message_content with
  | none => { isValid := is_valid, violatedSlot := violated_slot, message := none }
  | some c =>
    { isValid := is_valid, violatedSlot := violated_slot,
      message := some { contentType := "PlainText", content := c } }

/-- `elicit_slot` of the validation function: ElicitSlot with a `message`
key. -/
def vf_elicit_slot (session_attributes : Option SessAttrs) (intent_name : String)
    (slots : Slots) (slot_to_elicit : String) (message : Option Message) :
    Response :=
  { sessionAttributes := session_attributes,
    dialogAction := .elicitSlot intent_name slots slot_to_elicit message }

/-- `delegate` of the validation function. -/
def vf_delegate (session_attributes : Option SessAttrs) (slots : Slots) :
    Response :=
  { sessionAttributes := session_attributes,
    dialogAction := .delegate slots }

/-- `validate_customer_identifier` of the validation function: `len` of a
Python `None` raises `TypeError`; an empty string or a string other than
`'CUS01'`/`'CUS02'` is rejected with the fixed message. -/
def vf_validate_customer_identifier (customer_identifier : Option String) :
    Except PyError ValidationResult :=
  match customer_identifier with
  | none => .error (.typeError "object of type NoneType has no len()")
  | some cid =>
    if cid.length = 0 then
      .ok (build_validation_result false (some "CustomerIdentifier")
            (some "The customer identifier you have provided is invalid. Please try again."))
    else if cid ≠ "CUS01" ∧ cid ≠ "CUS02" then
      .ok (build_validation_result false (some "CustomerIdentifier")
            (some "The customer identifier you have provided is invalid. Please try again."))
    else
      .ok (build_validation_result true none none)

/-- `lambda_handler` of `AccountOverviewIntent_ValidationFunction.py`.
Notable source facts carried over faithfully:
  * the identity check raises only when the bot name mismatches AND the
    intent name mismatches (`and` in the source, line 73);
  * `invocationSource` is never read;
  * `sessionAttributes` is defaulted to an empty dict when `None`;
  * the invalid branch reads the `violatedSlot` and `message` keys of the
    validation result (both present on every invalid result the validator
    produces; the catch-all arm models the `KeyError` a missing `message`
    key would raise);
  * the valid branch returns `delegate(output_session_attributes, ...)`
    where `output_session_attributes` is never assigned: `NameError`. -/
def validationFunction_lambda_handler (event : Event) : Except PyError Response :=
  if event.botName ≠ "ACMEBankBot" ∧ event.intentName ≠ "AccountOverviewIntent" then
    .error (.exceptionRaised ("Intent " ++ event.intentName ++ " not supported."))
  else
    match event.slots.lookup "CustomerIdentifier" with
    | none => .error (.keyError "CustomerIdentifier")
    | some customer_identifier =>
      let session_attributes : SessAttrs :=
        match event.sessionAttributes with
        | none => []
        | some s => s
      match vf_validate_customer_identifier customer_identifier with
      | .error e => .error e
      | .ok validation_result =>
        if validation_result.isValid = false then
          match validation_result.violatedSlot, validation_result.message with
          | some violated, some msg =>
            .ok (vf_elicit_slot (some session_attributes) event.intentName
                  (setSlot event.slots violated none) violated (some msg))
          | _, _ => .error (.keyError "message")
        else
          .error (.nameError "output_session_attributes")

/-! ## Helper lemmas -/

/-- Updating a present key rewrites exactly that entry. -/
theorem lookup_setSlot_self (s : Slots) (n : String) (v w : Option String)
    (h : s.lookup n = some v) : (setSlot s n w).lookup n = some w := by
  induction s with
  | nil => simp at h
  | cons p t ih =>
    obtain ⟨k, u⟩ := p
    by_cases hk : k = n
    · subst hk
      simp [setSlot, List.lookup_cons]
    · have hbeq : (n == k) = false := beq_eq_false_iff_ne.mpr (fun e => hk e.symm)
      rw [List.lookup_cons, hbeq] at h
      show List.lookup n ((if k = n then (k, w) else (k, u)) :: setSlot t n w) = some w
      rw [if_neg hk, List.lookup_cons, hbeq]
      exact ih h

/-- Updating one key leaves every other key's binding unchanged. -/
theorem lookup_setSlot_ne (s : Slots) (n k : String) (w : Option String)
    (h : k ≠ n) : (setSlot s n w).lookup k = s.lookup k := by
  induction s with
  | nil => rfl
  | cons p t ih =>
    obtain ⟨a, u⟩ := p
    show List.lookup k ((if a = n then (a, w) else (a, u)) :: setSlot t n w) =
      List.lookup k ((a, u) :: t)
    by_cases ha : a = n
    · have hbeq : (k == a) = false :=
        beq_eq_false_iff_ne.mpr (fun e => h (e.trans ha))
      rw [if_pos ha, List.lookup_cons, List.lookup_cons, hbeq]
      exact ih
    · rw [if_neg ha, List.lookup_cons, List.lookup_cons]
      cases hbeq : k == a with
      | true => rfl
      | false => exact ih

/-- The store-backed customer check succeeds exactly on stored identifiers. -/
theorem validate_customer_identifier_iff (store : Store) (cid : String) :
    validate_customer_identifier store cid = true ↔ cid ∈ store.customers := by
  unfold validate_customer_identifier
  by_cases h : (store.customers.filter (fun k => k = cid)).length = 0
  · rw [if_pos h]
    constructor
    · intro hf
      cases hf
    · intro hmem
      exact absurd (by simp)
        (List.filter_eq_nil_iff.mp (List.length_eq_zero.mp h) cid hmem)
  · rw [if_neg h]
    constructor
    · intro _
      have hne : store.customers.filter (fun k => k = cid) ≠ [] :=
        fun e => h (by rw [e]; rfl)
      obtain ⟨x, hx⟩ := List.exists_mem_of_ne_nil _ hne
      have hx2 := List.mem_filter.mp hx
      have hx3 : x = cid := by simpa using hx2.2
      exact hx3 ▸ hx2.1
    · intro _
      rfl

/-- Accumulator lemma for `String.intercalate.go`. -/
theorem intercalate_go_append (s : String) (t : List String) :
    ∀ x y : String,
      String.intercalate.go (x ++ y) s t = x ++ String.intercalate.go y s t := by
  induction t with
  | nil =>
    intro x y
    rfl
  | cons a as ih =>
    intro x y
    show String.intercalate.go (x ++ y ++ s ++ a) s as =
      x ++ String.intercalate.go (y ++ s ++ a) s as
    rw [String.append_assoc x y s, String.append_assoc x (y ++ s) a]
    exact ih x (y ++ s ++ a)

/-- Head expansion of `String.intercalate` on a two-or-more list. -/
theorem intercalate_cons_cons (s x y : String) (t : List String) :
    String.intercalate s (x :: y :: t) =
      x ++ s ++ String.intercalate s (y :: t) :=
  intercalate_go_append s t (x ++ s) y

/-- The account loop joins the descriptions with `", "` and appends the
closing sentence once, after the last entry. -/
theorem formatAccounts_eq_intercalate (l : List AccountRecord) (h : l ≠ []) :
    formatAccounts l =
      String.intercalate ", " (l.map accountDescription) ++
        ". Is there anything else I can help you with?" := by
  induction l with
  | nil => exact absurd rfl h
  | cons a t ih =>
    cases t with
    | nil => rfl
    | cons b t2 =>
      have ih2 := ih (by simp)
      simp only [formatAccounts, ih2, List.map_cons, intercalate_cons_cons,
        String.append_assoc]

/-- The transaction loop joins identically to the account loop. -/
theorem formatTransactions_eq_intercalate (l : List TransactionRecord)
    (h : l ≠ []) :
    formatTransactions l =
      String.intercalate ", " (l.map transactionDescription) ++
        ". Is there anything else I can help you with?" := by
  induction l with
  | nil => exact absurd rfl h
  | cons a t ih =>
    cases t with
    | nil => rfl
    | cons b t2 =>
      have ih2 := ih (by simp)
      simp only [formatTransactions, ih2, List.map_cons, intercalate_cons_cons,
        String.append_assoc]

/-! ## Handler path characterizations -/

/-- AccountOverview, validation phase, customer slot missing: elicit it. -/
theorem ao_elicit_missing (store : Store) (ev : Event)
    (hbot : ev.botName = "ACMEBankBot")
    (hint : ev.intentName = "AccountOverview")
    (hsrc : ev.invocationSource = "DialogCodeHook")
    (hcid : ev.slots.lookup "CustomerIdentifier" = some none) :
    accountOverview_lambda_handler store ev =
      .ok { sessionAttributes := ev.sessionAttributes,
            dialogAction :=
              .elicitSlot "AccountOverview" ev.slots "CustomerIdentifier" none } := by
  simp [accountOverview_lambda_handler, hbot, hint, hsrc, hcid, elicit_slot]

/-- AccountOverview, validation phase, customer slot present but failing the
store lookup: Delegate with that slot cleared. -/
theorem ao_delegate_invalid (store : Store) (ev : Event) (cid : String)
    (hbot : ev.botName = "ACMEBankBot")
    (hint : ev.intentName = "AccountOverview")
    (hsrc : ev.invocationSource = "DialogCodeHook")
    (hcid : ev.slots.lookup "CustomerIdentifier" = some (some cid))
    (hinv : validate_customer_identifier store cid = false) :
    accountOverview_lambda_handler store ev =
      .ok { sessionAttributes := ev.sessionAttributes,
            dialogAction :=
              .delegate (setSlot ev.slots "CustomerIdentifier" none) } := by
  simp [accountOverview_lambda_handler, hbot, hint, hsrc, hcid, hinv,
    defer_next_action_to_chatbot]

/-- AccountOverview, any non-validation phase with a present customer slot:
Close with the formatted overview, with no validation performed. -/
theorem ao_close_fulfillment (store : Store) (ev : Event) (cid : String)
    (hbot : ev.botName = "ACMEBankBot")
    (hint : ev.intentName = "AccountOverview")
    (hsrc : ev.invocationSource ≠ "DialogCodeHook")
    (hcid : ev.slots.lookup "CustomerIdentifier" = some (some cid)) :
    accountOverview_lambda_handler store ev =
      .ok { sessionAttributes := ev.sessionAttributes,
            dialogAction := .close "Fulfilled"
              { contentType := "PlainText",
                content := get_account_overview store cid } } := by
  simp [accountOverview_lambda_handler, hbot, hint, hsrc, hcid]

/-- ViewTransactionList, validation phase, customer slot missing: elicit it
(whatever the account slot holds). -/
theorem tl_elicit_customer_missing (store : Store) (ev : Event)
    (acct : Option String)
    (hbot : ev.botName = "ACMEBankBot")
    (hint : ev.intentName = "ViewTransactionList")
    (hsrc : ev.invocationSource = "DialogCodeHook")
    (hcid : ev.slots.lookup "CustomerIdentifier" = some none)
    (haid : ev.slots.lookup "AccountIdentifier" = some acct) :
    viewTransactionList_lambda_handler store ev =
      .ok { sessionAttributes := ev.sessionAttributes,
            dialogAction :=
              .elicitSlot "ViewTransactionList" ev.slots "CustomerIdentifier"
                none } := by
  simp [viewTransactionList_lambda_handler, hbot, hint, hsrc, hcid, haid,
    elicit_slot]

/-- ViewTransactionList, validation phase, customer present (valid or not),
account missing: elicit the account slot, no validation yet performed. -/
theorem tl_elicit_account_missing (store : Store) (ev : Event) (cid : String)
    (hbot : ev.botName = "ACMEBankBot")
    (hint : ev.intentName = "ViewTransactionList")
    (hsrc : ev.invocationSource = "DialogCodeHook")
    (hcid : ev.slots.lookup "CustomerIdentifier" = some (some cid))
    (haid : ev.slots.lookup "AccountIdentifier" = some none) :
    viewTransactionList_lambda_handler store ev =
      .ok { sessionAttributes := ev.sessionAttributes,
            dialogAction :=
              .elicitSlot "ViewTransactionList" ev.slots "AccountIdentifier"
                none } := by
  simp [viewTransactionList_lambda_handler, hbot, hint, hsrc, hcid, haid,
    elicit_slot]

/-- ViewTransactionList, validation phase, both slots present, customer
invalid: Delegate with the customer slot cleared. -/
theorem tl_delegate_customer_invalid (store : Store) (ev : Event)
    (cid aid : String)
    (hbot : ev.botName = "ACMEBankBot")
    (hint : ev.intentName = "ViewTransactionList")
    (hsrc : ev.invocationSource = "DialogCodeHook")
    (hcid : ev.slots.lookup "CustomerIdentifier" = some (some cid))
    (haid : ev.slots.lookup "AccountIdentifier" = some (some aid))
    (hinv : validate_customer_identifier store cid = false) :
    viewTransactionList_lambda_handler store ev =
      .ok { sessionAttributes := ev.sessionAttributes,
            dialogAction :=
              .delegate (setSlot ev.slots "CustomerIdentifier" none) } := by
  simp [viewTransactionList_lambda_handler, hbot, hint, hsrc, hcid, haid, hinv,
    defer_next_action_to_chatbot]

/-- ViewTransactionList, validation phase, both slots present, customer
valid but account invalid: Delegate with the account slot cleared. -/
theorem tl_delegate_account_invalid (store : Store) (ev : Event)
    (cid aid : String)
    (hbot : ev.botName = "ACMEBankBot")
    (hint : ev.intentName = "ViewTransactionList")
    (hsrc : ev.invocationSource = "DialogCodeHook")
    (hcid : ev.slots.lookup "CustomerIdentifier" = some (some cid))
    (haid : ev.slots.lookup "AccountIdentifier" = some (some aid))
    (hval : validate_customer_identifier store cid = true)
    (hinv : validate_account_identifier store cid aid = false) :
    viewTransactionList_lambda_handler store ev =
      .ok { sessionAttributes := ev.sessionAttributes,
            dialogAction :=
              .delegate (setSlot ev.slots "AccountIdentifier" none) } := by
  simp [viewTransactionList_lambda_handler, hbot, hint, hsrc, hcid, haid, hval,
    hinv, defer_next_action_to_chatbot]

/-- ViewTransactionList, any non-validation phase with a present account
slot: Close with the formatted transaction summary; the customer slot value
(even a missing one) is never consulted. -/
theorem tl_close_fulfillment (store : Store) (ev : Event)
    (c : Option String) (aid : String)
    (hbot : ev.botName = "ACMEBankBot")
    (hint : ev.intentName = "ViewTransactionList")
    (hsrc : ev.invocationSource ≠ "DialogCodeHook")
    (hcid : ev.slots.lookup "CustomerIdentifier" = some c)
    (haid : ev.slots.lookup "AccountIdentifier" = some (some aid)) :
    viewTransactionList_lambda_handler store ev =
      .ok { sessionAttributes := ev.sessionAttributes,
            dialogAction := .close "Fulfilled"
              { contentType := "PlainText",
                content := get_transaction_summary store aid } } := by
  simp [viewTransactionList_lambda_handler, hbot, hint, hsrc, hcid, haid]

/-! ## Claims -/

/-- Claim C1, counterexample: in a Validation-phase turn of the
AccountOverview handler with a present but invalid CustomerIdentifier, the
returned dialog action is a Delegate (which carries no message at all), not
the ElicitSlot with a non-empty rejection message that the claim requires. -/
theorem claim_C1_counterexample :
    validate_customer_identifier ⟨["CUS01"], [], []⟩ "CUS99" = false ∧
    accountOverview_lambda_handler ⟨["CUS01"], [], []⟩
      ⟨"ACMEBankBot", "AccountOverview",
        [("CustomerIdentifier", some "CUS99")], some [], "DialogCodeHook"⟩ =
      .ok ⟨some [], .delegate [("CustomerIdentifier", none)]⟩ :=
  ⟨rfl, rfl⟩

/-- Claim C1, amended: in a Validation-phase turn of the two fulfillment
handlers a present but invalid required slot value yields a Delegate
response (not ElicitSlot, and with no message) whose slot mapping has
exactly that slot cleared to absent and no other slot touched. -/
theorem claim_C1_amended (store : Store) (ev : Event) :
    ev.botName = "ACMEBankBot" →
    ev.invocationSource = "DialogCodeHook" →
    (∀ cid, ev.intentName = "AccountOverview" →
      ev.slots.lookup "CustomerIdentifier" = some (some cid) →
      validate_customer_identifier store cid = false →
      accountOverview_lambda_handler store ev =
        .ok ⟨ev.sessionAttributes,
          .delegate (setSlot ev.slots "CustomerIdentifier" none)⟩) ∧
    (∀ cid aid, ev.intentName = "ViewTransactionList" →
      ev.slots.lookup "CustomerIdentifier" = some (some cid) →
      ev.slots.lookup "AccountIdentifier" = some (some aid) →
      validate_customer_identifier store cid = false →
      viewTransactionList_lambda_handler store ev =
        .ok ⟨ev.sessionAttributes,
          .delegate (setSlot ev.slots "CustomerIdentifier" none)⟩) ∧
    (∀ cid aid, ev.intentName = "ViewTransactionList" →
      ev.slots.lookup "CustomerIdentifier" = some (some cid) →
      ev.slots.lookup "AccountIdentifier" = some (some aid) →
      validate_customer_identifier store cid = true →
      validate_account_identifier store cid aid = false →
      viewTransactionList_lambda_handler store ev =
        .ok ⟨ev.sessionAttributes,
          .delegate (setSlot ev.slots "AccountIdentifier" none)⟩) ∧
    (∀ (slots : Slots) (name : String) (v w : Option String),
      slots.lookup name = some v →
      (setSlot slots name w).lookup name = some w) ∧
    (∀ (slots : Slots) (name k : String) (w : Option String),
      k ≠ name → (setSlot slots name w).lookup k = slots.lookup k) := by
  intro hbot hsrc
  refine ⟨?_, ?_, ?_, ?_, ?_⟩
  · intro cid hin hcid hinv
    exact ao_delegate_invalid store ev cid hbot hin hsrc hcid hinv
  · intro cid aid hin hcid haid hinv
    exact tl_delegate_customer_invalid store ev cid aid hbot hin hsrc hcid haid hinv
  · intro cid aid hin hcid haid hval hinv
    exact tl_delegate_account_invalid store ev cid aid hbot hin hsrc hcid haid hval hinv
  · exact lookup_setSlot_self
  · intro slots name k w hk
    exact lookup_setSlot_ne slots name k w hk

/-- Claim C1, witness: concrete invalid customer in a ViewTransactionList
validation turn; the customer slot is cleared and the account slot is left
untouched. -/
theorem claim_C1_amended_witness :
    viewTransactionList_lambda_handler ⟨["CUSA"], [], []⟩
      ⟨"ACMEBankBot", "ViewTransactionList",
        [("CustomerIdentifier", some "CUSB"), ("AccountIdentifier", some "ACC9")],
        none, "DialogCodeHook"⟩ =
      .ok ⟨none, .delegate
        [("CustomerIdentifier", none), ("AccountIdentifier", some "ACC9")]⟩ ∧
    (setSlot
        [("CustomerIdentifier", some "CUSB"), ("AccountIdentifier", some "ACC9")]
        "CustomerIdentifier" none).lookup "AccountIdentifier" =
      ([("CustomerIdentifier", some "CUSB"), ("AccountIdentifier", some "ACC9")] :
        Slots).lookup "AccountIdentifier" := by
  refine ⟨?_, ?_⟩
  · exact (claim_C1_amended ⟨["CUSA"], [], []⟩
      ⟨"ACMEBankBot", "ViewTransactionList",
        [("CustomerIdentifier", some "CUSB"), ("AccountIdentifier", some "ACC9")],
        none, "DialogCodeHook"⟩ rfl rfl).2.1 "CUSB" "ACC9" rfl rfl rfl rfl
  · exact (claim_C1_amended ⟨["CUSA"], [], []⟩
      ⟨"ACMEBankBot", "ViewTransactionList",
        [("CustomerIdentifier", some "CUSB"), ("AccountIdentifier", some "ACC9")],
        none, "DialogCodeHook"⟩ rfl rfl).2.2.2.2
      [("CustomerIdentifier", some "CUSB"), ("AccountIdentifier", some "ACC9")]
      "CustomerIdentifier" "AccountIdentifier" none (by decide)

/-- Claim C2, counterexample: a ViewTransactionList validation turn with
CustomerIdentifier present but invalid and AccountIdentifier absent acts on
AccountIdentifier (elicits it), not on CustomerIdentifier as the claim
requires: the missing-value checks of both slots run before any validity
check. -/
theorem claim_C2_counterexample :
    validate_customer_identifier ⟨["CUS01"], [], []⟩ "CUS99" = false ∧
    viewTransactionList_lambda_handler ⟨["CUS01"], [], []⟩
      ⟨"ACMEBankBot", "ViewTransactionList",
        [("CustomerIdentifier", some "CUS99"), ("AccountIdentifier", none)],
        some [], "DialogCodeHook"⟩ =
      .ok ⟨some [], .elicitSlot "ViewTransactionList"
        [("CustomerIdentifier", some "CUS99"), ("AccountIdentifier", none)]
        "AccountIdentifier" none⟩ :=
  ⟨rfl, rfl⟩

/-- Claim C2, amended: in a ViewTransactionList validation turn the handler
first checks the two required slots for missing values in declared order,
then checks their validity in declared order; the first failing check halts
the walk.  In particular a turn with CustomerIdentifier present (valid or
not) and AccountIdentifier absent elicits AccountIdentifier. -/
theorem claim_C2_amended (store : Store) (ev : Event)
    (hbot : ev.botName = "ACMEBankBot")
    (hin : ev.intentName = "ViewTransactionList")
    (hsrc : ev.invocationSource = "DialogCodeHook") :
    (∀ acct, ev.slots.lookup "CustomerIdentifier" = some none →
      ev.slots.lookup "AccountIdentifier" = some acct →
      viewTransactionList_lambda_handler store ev =
        .ok ⟨ev.sessionAttributes,
          .elicitSlot "ViewTransactionList" ev.slots "CustomerIdentifier" none⟩) ∧
    (∀ cid, ev.slots.lookup "CustomerIdentifier" = some (some cid) →
      ev.slots.lookup "AccountIdentifier" = some none →
      viewTransactionList_lambda_handler store ev =
        .ok ⟨ev.sessionAttributes,
          .elicitSlot "ViewTransactionList" ev.slots "AccountIdentifier" none⟩) ∧
    (∀ cid aid, ev.slots.lookup "CustomerIdentifier" = some (some cid) →
      ev.slots.lookup "AccountIdentifier" = some (some aid) →
      validate_customer_identifier store cid = false →
      viewTransactionList_lambda_handler store ev =
        .ok ⟨ev.sessionAttributes,
          .delegate (setSlot ev.slots "CustomerIdentifier" none)⟩) ∧
    (∀ cid aid, ev.slots.lookup "CustomerIdentifier" = some (some cid) →
      ev.slots.lookup "AccountIdentifier" = some (some aid) →
      validate_customer_identifier store cid = true →
      validate_account_identifier store cid aid = false →
      viewTransactionList_lambda_handler store ev =
        .ok ⟨ev.sessionAttributes,
          .delegate (setSlot ev.slots "AccountIdentifier" none)⟩) := by
  refine ⟨?_, ?_, ?_, ?_⟩
  · intro acct hcid haid
    exact tl_elicit_customer_missing store ev acct hbot hin hsrc hcid haid
  · intro cid hcid haid
    exact tl_elicit_account_missing store ev cid hbot hin hsrc hcid haid
  · intro cid aid hcid haid hinv
    exact tl_delegate_customer_invalid store ev cid aid hbot hin hsrc hcid haid hinv
  · intro cid aid hcid haid hval hinv
    exact tl_delegate_account_invalid store ev cid aid hbot hin hsrc hcid haid hval hinv

/-- Claim C2, witness: both slots present, customer invalid — the validity
walk acts on the customer slot and delegates with it cleared. -/
theorem claim_C2_amended_witness :
    viewTransactionList_lambda_handler ⟨["CUS01"], [], []⟩
      ⟨"ACMEBankBot", "ViewTransactionList",
        [("CustomerIdentifier", some "CUS99"), ("AccountIdentifier", some "ACC1")],
        some [], "DialogCodeHook"⟩ =
      .ok ⟨some [], .delegate
        [("CustomerIdentifier", none), ("AccountIdentifier", some "ACC1")]⟩ :=
  (claim_C2_amended ⟨["CUS01"], [], []⟩
    ⟨"ACMEBankBot", "ViewTransactionList",
      [("CustomerIdentifier", some "CUS99"), ("AccountIdentifier", some "ACC1")],
      some [], "DialogCodeHook"⟩ rfl rfl rfl).2.2.1 "CUS99" "ACC1" rfl rfl rfl

/-- Claim C3, counterexample: the standalone validation function never
reads `invocationSource`; on a Fulfillment-phase turn it still validates
the customer slot and returns an ElicitSlot with the rejection message
instead of proceeding without validation. -/
theorem claim_C3_counterexample :
    validationFunction_lambda_handler
      ⟨"ACMEBankBot", "AccountOverviewIntent",
        [("CustomerIdentifier", some "CUS99")], none, "FulfillmentCodeHook"⟩ =
      .ok ⟨some [], .elicitSlot "AccountOverviewIntent"
        [("CustomerIdentifier", none)] "CustomerIdentifier"
        (some ⟨"PlainText",
          "The customer identifier you have provided is invalid. Please try again."⟩)⟩ :=
  rfl

/-- Claim C3, amended: the two fulfillment handlers validate only when
`invocationSource = 'DialogCodeHook'`; any other phase proceeds straight to
record fetching and formatting, whatever the slot values would validate to.
The standalone validation function ignores `invocationSource` entirely and
behaves identically across phases. -/
theorem claim_C3_amended (store : Store) (ev : Event) :
    (∀ cid, ev.botName = "ACMEBankBot" → ev.intentName = "AccountOverview" →
      ev.invocationSource ≠ "DialogCodeHook" →
      ev.slots.lookup "CustomerIdentifier" = some (some cid) →
      accountOverview_lambda_handler store ev =
        .ok ⟨ev.sessionAttributes, .close "Fulfilled"
          ⟨"PlainText", get_account_overview store cid⟩⟩) ∧
    (∀ c aid, ev.botName = "ACMEBankBot" →
      ev.intentName = "ViewTransactionList" →
      ev.invocationSource ≠ "DialogCodeHook" →
      ev.slots.lookup "CustomerIdentifier" = some c →
      ev.slots.lookup "AccountIdentifier" = some (some aid) →
      viewTransactionList_lambda_handler store ev =
        .ok ⟨ev.sessionAttributes, .close "Fulfilled"
          ⟨"PlainText", get_transaction_summary store aid⟩⟩) ∧
    (∀ s, validationFunction_lambda_handler { ev with invocationSource := s } =
      validationFunction_lambda_handler ev) := by
  refine ⟨?_, ?_, ?_⟩
  · intro cid hb hi hs hc
    exact ao_close_fulfillment store ev cid hb hi hs hc
  · intro c aid hb hi hs hc ha
    exact tl_close_fulfillment store ev c aid hb hi hs hc ha
  · intro s
    cases ev
    rfl

/-- Claim C3, witness: a Fulfillment-phase AccountOverview turn whose
customer identifier would fail validation still returns the formatted
Close response. -/
theorem claim_C3_amended_witness :
    validate_customer_identifier ⟨["CUS01"], [], []⟩ "CUS99" = false ∧
    accountOverview_lambda_handler ⟨["CUS01"], [], []⟩
      ⟨"ACMEBankBot", "AccountOverview",
        [("CustomerIdentifier", some "CUS99")], none, "FulfillmentCodeHook"⟩ =
      .ok ⟨none, .close "Fulfilled"
        ⟨"PlainText", get_account_overview ⟨["CUS01"], [], []⟩ "CUS99"⟩⟩ :=
  ⟨rfl, (claim_C3_amended ⟨["CUS01"], [], []⟩
    ⟨"ACMEBankBot", "AccountOverview",
      [("CustomerIdentifier", some "CUS99")], none, "FulfillmentCodeHook"⟩).1
    "CUS99" rfl rfl (by decide) rfl⟩

/-- Claim C4: the validation function joins its two identity checks with a
Python `and`, so a bot-name mismatch alone (with the expected intent name)
does NOT raise: the handler proceeds and emits a dialog action, here an
ElicitSlot.  This evaluates the embedded handler at that failing input. -/
theorem claim_C4_failing_eval :
    validationFunction_lambda_handler
      ⟨"NotACMEBankBot", "AccountOverviewIntent",
        [("CustomerIdentifier", some "CUS99")], none, "DialogCodeHook"⟩ =
      .ok ⟨some [], .elicitSlot "AccountOverviewIntent"
        [("CustomerIdentifier", none)] "CustomerIdentifier"
        (some ⟨"PlainText",
          "The customer identifier you have provided is invalid. Please try again."⟩)⟩ :=
  rfl

/-- Claim C5: the Delegate branch of the validation function returns
`delegate(output_session_attributes, ...)` where
`output_session_attributes` was never assigned, so the branch aborts with a
NameError instead of carrying the session attributes through.  This
evaluates the embedded handler on a turn reaching that branch. -/
theorem claim_C5_failing_eval :
    validationFunction_lambda_handler
      ⟨"ACMEBankBot", "AccountOverviewIntent",
        [("CustomerIdentifier", some "CUS01")], some [("k", "v")],
        "DialogCodeHook"⟩ =
      .error (.nameError "output_session_attributes") :=
  rfl

/-- Claim C6, counterexample: the validation function judges invalid a
customer identifier that is present, non-empty and exists in the customer
reference store — its rule is the hard-coded pair CUS01/CUS02, not store
membership, so the claimed canonical iff fails. -/
theorem claim_C6_counterexample :
    "CUS99" ∈ (⟨["CUS99"], [], []⟩ : Store).customers ∧
    "CUS99" ≠ "" ∧
    vf_validate_customer_identifier (some "CUS99") =
      .ok { isValid := false, violatedSlot := some "CustomerIdentifier",
            message := some ⟨"PlainText",
              "The customer identifier you have provided is invalid. Please try again."⟩ } :=
  ⟨by decide, by decide, rfl⟩

/-- Claim C6, amended: two validity rules coexist.  The fulfillment
handlers judge a CustomerIdentifier valid iff it exists in the customer
store (and, per C1, attach no message when it is invalid); the standalone
validation function judges it valid iff it equals CUS01 or CUS02
(the empty string also being rejected by its length guard), and every
invalid outcome carries the fixed rejection message. -/
theorem claim_C6_amended :
    (∀ (store : Store) (cid : String),
      (validate_customer_identifier store cid = true ↔ cid ∈ store.customers)) ∧
    (∀ cid : String,
      vf_validate_customer_identifier (some cid) =
        if cid = "CUS01" ∨ cid = "CUS02" then
          .ok { isValid := true, violatedSlot := none, message := none }
        else
          .ok { isValid := false, violatedSlot := some "CustomerIdentifier",
                message := some ⟨"PlainText",
                  "The customer identifier you have provided is invalid. Please try again."⟩ }) := by
  refine ⟨validate_customer_identifier_iff, ?_⟩
  intro cid
  by_cases h1 : cid = "CUS01"
  · subst h1
    rfl
  · by_cases h2 : cid = "CUS02"
    · subst h2
      rfl
    · by_cases h0 : cid.length = 0
      · simp [vf_validate_customer_identifier, h0, h1, h2,
          build_validation_result]
      · simp [vf_validate_customer_identifier, h0, h1, h2,
          build_validation_result]

/-- Claim C7: the account-overview formatter returns the fixed no-accounts
sentence for zero rows and otherwise the comma-joined balance lines with
the closing sentence appended once; spec Scenario B evaluates exactly. -/
theorem claim_C7_formatter :
    (∀ (store : Store) (cid : String),
      get_account_overview store cid =
        if store.accounts.filter (fun a => a.customerIdentifier = cid) = [] then
          "I could not find any accounts for you on our systems. Is there anything else I can help you with?"
        else
          String.intercalate ", "
            ((store.accounts.filter
              (fun a => a.customerIdentifier = cid)).map accountDescription) ++
            ". Is there anything else I can help you with?") ∧
    get_account_overview
      ⟨[], [⟨"C1", "ACC1", "100"⟩, ⟨"C1", "ACC2", "50"⟩], []⟩ "C1" =
      "The balance in account number ACC1 is £100, The balance in account number ACC2 is £50. Is there anything else I can help you with?" := by
  refine ⟨?_, rfl⟩
  intro store cid
  simp only [get_account_overview, List.length_eq_zero]
  by_cases h : store.accounts.filter (fun a => a.customerIdentifier = cid) = []
  · simp [h]
  · simp only [if_neg h]
    exact formatAccounts_eq_intercalate _ h

/-- Claim C8: the transaction-list formatter returns the fixed
no-transactions sentence for zero rows and otherwise the comma-joined
transaction lines with the closing sentence appended once; the type code
mapping (CW, TFR, default credit) is exercised on concrete rows, including
spec Scenario C. -/
theorem claim_C8_formatter :
    (∀ (store : Store) (aid : String),
      get_transaction_summary store aid =
        if store.transactions.filter (fun t => t.accountIdentifier = aid) = [] then
          "I could not find any transactions for this account on our systems. Is there anything else I can help you with?"
        else
          String.intercalate ", "
            ((store.transactions.filter
              (fun t => t.accountIdentifier = aid)).map transactionDescription) ++
            ". Is there anything else I can help you with?") ∧
    get_transaction_summary
      ⟨[], [], [⟨"ACC1", "T1", "20", "2024-01-01", "TFR"⟩]⟩ "ACC1" =
      "Transaction #T1: outbound transfer of £20 on 2024-01-01. Is there anything else I can help you with?" ∧
    get_transaction_summary
      ⟨[], [], [⟨"ACC2", "T9", "5", "2024-02-02", "CW"⟩]⟩ "ACC2" =
      "Transaction #T9: cash withdrawal of £5 on 2024-02-02. Is there anything else I can help you with?" ∧
    get_transaction_summary
      ⟨[], [], [⟨"ACC3", "T7", "9", "2024-03-03", "DEP"⟩]⟩ "ACC3" =
      "Transaction #T7: credit of £9 on 2024-03-03. Is there anything else I can help you with?" := by
  refine ⟨?_, rfl, rfl, rfl⟩
  intro store aid
  simp only [get_transaction_summary, List.length_eq_zero]
  by_cases h : store.transactions.filter (fun t => t.accountIdentifier = aid) = []
  · simp [h]
  · simp only [if_neg h]
    exact formatTransactions_eq_intercalate _ h

/-- Claim C9: the two fulfillment handlers elicit the first absent required
slot, but the validation function performs `len(customer_identifier)` with
no None guard: a Validation-phase turn with an absent CustomerIdentifier
aborts with a TypeError instead of eliciting the slot.  This evaluates the
embedded handler at that failing input. -/
theorem claim_C9_failing_eval :
    validationFunction_lambda_handler
      ⟨"ACMEBankBot", "AccountOverviewIntent",
        [("CustomerIdentifier", none)], none, "DialogCodeHook"⟩ =
      .error (.typeError "object of type NoneType has no len()") :=
  rfl

/-- Claim C10: in the Fulfillment phase of the ViewTransactionList handler
the Close message content is `get_transaction_summary store aid`, a
function of the AccountIdentifier slot and the transaction store only: two
fulfillment turns passing the identity checks that agree on
AccountIdentifier produce the identical content, whatever their
CustomerIdentifier values or session attributes. -/
theorem claim_C10_noninterference (store : Store) (e1 e2 : Event)
    (aid : String) (c1 c2 : Option String)
    (h1b : e1.botName = "ACMEBankBot")
    (h1i : e1.intentName = "ViewTransactionList")
    (h1s : e1.invocationSource ≠ "DialogCodeHook")
    (h1c : e1.slots.lookup "CustomerIdentifier" = some c1)
    (h1a : e1.slots.lookup "AccountIdentifier" = some (some aid))
    (h2b : e2.botName = "ACMEBankBot")
    (h2i : e2.intentName = "ViewTransactionList")
    (h2s : e2.invocationSource ≠ "DialogCodeHook")
    (h2c : e2.slots.lookup "CustomerIdentifier" = some c2)
    (h2a : e2.slots.lookup "AccountIdentifier" = some (some aid)) :
    viewTransactionList_lambda_handler store e1 =
      .ok ⟨e1.sessionAttributes, .close "Fulfilled"
        ⟨"PlainText", get_transaction_summary store aid⟩⟩ ∧
    viewTransactionList_lambda_handler store e2 =
      .ok ⟨e2.sessionAttributes, .close "Fulfilled"
        ⟨"PlainText", get_transaction_summary store aid⟩⟩ :=
  ⟨tl_close_fulfillment store e1 c1 aid h1b h1i h1s h1c h1a,
   tl_close_fulfillment store e2 c2 aid h2b h2i h2s h2c h2a⟩

/-- Claim C10, witness: two concrete fulfillment turns differing in
CustomerIdentifier and session attributes but agreeing on AccountIdentifier
produce the same Close content. -/
theorem claim_C10_noninterference_witness :
    viewTransactionList_lambda_handler
      ⟨["CUS01"], [⟨"CUS01", "ACC1", "100"⟩],
        [⟨"ACC1", "T1", "20", "2024-01-01", "TFR"⟩]⟩
      ⟨"ACMEBankBot", "ViewTransactionList",
        [("CustomerIdentifier", some "CUS01"), ("AccountIdentifier", some "ACC1")],
        some [("channel", "web")], "FulfillmentCodeHook"⟩ =
      .ok ⟨some [("channel", "web")], .close "Fulfilled"
        ⟨"PlainText", get_transaction_summary
          ⟨["CUS01"], [⟨"CUS01", "ACC1", "100"⟩],
            [⟨"ACC1", "T1", "20", "2024-01-01", "TFR"⟩]⟩ "ACC1"⟩⟩ ∧
    viewTransactionList_lambda_handler
      ⟨["CUS01"], [⟨"CUS01", "ACC1", "100"⟩],
        [⟨"ACC1", "T1", "20", "2024-01-01", "TFR"⟩]⟩
      ⟨"ACMEBankBot", "ViewTransactionList",
        [("CustomerIdentifier", some "CUSZZ"), ("AccountIdentifier", some "ACC1")],
        none, "FulfillmentCodeHook"⟩ =
      .ok ⟨none, .close "Fulfilled"
        ⟨"PlainText", get_transaction_summary
          ⟨["CUS01"], [⟨"CUS01", "ACC1", "100"⟩],
            [⟨"ACC1", "T1", "20", "2024-01-01", "TFR"⟩]⟩ "ACC1"⟩⟩ :=
  claim_C10_noninterference
    ⟨["CUS01"], [⟨"CUS01", "ACC1", "100"⟩],
      [⟨"ACC1", "T1", "20", "2024-01-01", "TFR"⟩]⟩
    ⟨"ACMEBankBot", "ViewTransactionList",
      [("CustomerIdentifier", some "CUS01"), ("AccountIdentifier", some "ACC1")],
      some [("channel", "web")], "FulfillmentCodeHook"⟩
    ⟨"ACMEBankBot", "ViewTransactionList",
      [("CustomerIdentifier", some "CUSZZ"), ("AccountIdentifier", some "ACC1")],
      none, "FulfillmentCodeHook"⟩
    "ACC1" (some "CUS01") (some "CUSZZ")
    rfl rfl (by decide) rfl rfl rfl rfl (by decide) rfl rfl

end ACMEBank
